import Mathlib

/-!
A shallow embedding, in Lean 4, of the orca actor-transition model from
`tools/orca/src/model.rs` and `tools/orca/src/state.rs`, together with
theorems settling the specification's claims about it.

Conventions of the embedding:
* Rust `Result<T, E>` becomes `Except E T`; `Option<T>` becomes `Option T`.
* Machine integers (`i32`, `u64`) become `Int` / `Nat`; `f64` becomes `Float`.
* Effects (file system, wall clock, network client, OS entropy) are passed in
  as explicit arguments, so every function is pure and deterministic.
* Items of the crate that are not part of the two given files (`error.rs`,
  `run.rs`, `models/model_basic.rs`, `models/model_markov.rs`, the serde
  serializers) are modelled from the specification; each such definition says
  so in its doc comment.
-/

namespace Orca

/-- The action enumeration from `model.rs`: `pub enum TransitionAction`
with explicit discriminants `Login = 0, Logout = 1, ReadProperty = 2,
WriteProperty = 3`. -/
inductive TransitionAction
  | Login
  | Logout
  | ReadProperty
  | WriteProperty
deriving DecidableEq

/-- The `as i32` cast of a `TransitionAction`, i.e. its explicit Rust
discriminant. -/
def TransitionAction.toOrdinal : TransitionAction → Int
  | .Login => 0
  | .Logout => 1
  | .ReadProperty => 2
  | .WriteProperty => 3

/-- The variant count `TransitionAction::COUNT` produced by the
`#[derive(EnumCount)]` (strum) on the enumeration: four variants. -/
def TransitionAction.COUNT : Nat := 4

/-- `impl TryFrom<i32> for TransitionAction` from `model.rs`: a chain of
guard arms `x if x == TransitionAction::Login as i32 => Ok(Login)`, ...,
falling through to `Err(())`.  The associated error type in the source is
the unit type `()`. -/
def TransitionAction.tryFrom (v : Int) : Except Unit TransitionAction :=
  if v = TransitionAction.Login.toOrdinal then .ok .Login
  else if v = TransitionAction.Logout.toOrdinal then .ok .Logout
  else if v = TransitionAction.ReadProperty.toOrdinal then .ok .ReadProperty
  else if v = TransitionAction.WriteProperty.toOrdinal then .ok .WriteProperty
  else .error ()

/-- Modelled from the spec: the crate error enumeration lives in `error.rs`,
which is not among the given files.  Its kinds, per the specification's error
taxonomy, are `Io` (state file open/create/read failure), `SerdeJson`
(called "Serialization" by the spec: malformed or unencodable state
document), `ActorConstruction` (invalid behavior-model parameters) and
`InvalidOrdinal` (recoverable decode failure for an out-of-range action
index). -/
inductive Error
  | Io
  | SerdeJson
  | ActorConstruction
  | InvalidOrdinal
deriving DecidableEq

/-- Modelled from the spec: the internal matrix-index-to-action conversion
(in `models/model_markov.rs`, not among the given files) decodes an ordinal
through `TransitionAction::try_from` and surfaces the unit failure as the
crate error `InvalidOrdinal`. -/
def decodeAction (v : Int) : Except Error TransitionAction :=
  (TransitionAction.tryFrom v).mapError fun _ => Error.InvalidOrdinal

/-- C3: for every integer ordinal in `[0, COUNT)`, decoding via
`TryFrom<i32>` succeeds, and casting the resulting variant back with
`as i32` yields the original ordinal. -/
theorem tryFrom_toOrdinal_bijective_on_valid_range (v : Int)
    (h0 : 0 ≤ v) (h1 : v < (TransitionAction.COUNT : Int)) :
    ∃ a : TransitionAction,
      TransitionAction.tryFrom v = .ok a ∧ a.toOrdinal = v := by
  have h1' : v < 4 := by
    simpa [TransitionAction.COUNT] using h1
  interval_cases v
  · exact ⟨.Login, rfl, rfl⟩
  · exact ⟨.Logout, rfl, rfl⟩
  · exact ⟨.ReadProperty, rfl, rfl⟩
  · exact ⟨.WriteProperty, rfl, rfl⟩

/-- Witness for C3 at the concrete ordinal 2. -/
theorem tryFrom_toOrdinal_bijective_on_valid_range_witness :
    ∃ a : TransitionAction,
      TransitionAction.tryFrom 2 = .ok a ∧ a.toOrdinal = 2 :=
  tryFrom_toOrdinal_bijective_on_valid_range 2 (by decide) (by decide)

/-- C4: for any integer ordinal below 0 or at least `COUNT`, the decode
fails — at the `TryFrom<i32>` site with the recoverable unit error, which
the crate-level conversion surfaces as `InvalidOrdinal` — and, being an
ordinary error return of a total function, it is not a crash. -/
theorem tryFrom_fails_outside_valid_range (v : Int)
    (h : v < 0 ∨ (TransitionAction.COUNT : Int) ≤ v) :
    TransitionAction.tryFrom v = .error () ∧
      decodeAction v = .error Error.InvalidOrdinal := by
  have h4 : v < 0 ∨ (4 : Int) ≤ v := by simpa [TransitionAction.COUNT] using h
  have h0 : ¬ v = 0 := by omega
  have h1 : ¬ v = 1 := by omega
  have h2 : ¬ v = 2 := by omega
  have h3 : ¬ v = 3 := by omega
  constructor
  · simp [TransitionAction.tryFrom, TransitionAction.toOrdinal, h0, h1, h2, h3]
  · simp [decodeAction, TransitionAction.tryFrom, TransitionAction.toOrdinal,
      h0, h1, h2, h3, Except.mapError]

/-- Witness for C4 at the concrete out-of-range ordinal -1. -/
theorem tryFrom_fails_outside_valid_range_witness :
    TransitionAction.tryFrom (-1) = .error () ∧
      decodeAction (-1) = .error Error.InvalidOrdinal :=
  tryFrom_fails_outside_valid_range (-1) (Or.inl (by decide))

/-- Modelled from the spec: `DISTR_MATRIX_SIZE` is declared in
`models/model_markov.rs` (not among the given files); per the spec the
flattened probability matrix has size N² where N is the
`TransitionAction` variant count. -/
def DISTR_MATRIX_SIZE : Nat := TransitionAction.COUNT * TransitionAction.COUNT

/-- The Rust fixed-size array `[f64; DISTR_MATRIX_SIZE]` of
`Model::Markov.distributions_matrix`: a float list whose length is the
matrix size, enforced by the type. -/
abbrev DistrMatrix := { l : List Float // l.length = DISTR_MATRIX_SIZE }

/-- Strict ascending order of a string list, used to model `BTreeSet`. -/
def strictSorted : List String → Bool
  | [] => true
  | [_] => true
  | a :: b :: t => (decide (a < b)) && strictSorted (b :: t)

/-- The Rust `BTreeSet<String>` of `Person.member_of`, modelled as its
strictly ascending list of elements. -/
abbrev SortedStrings := { l : List String // strictSorted l = true }

/-- Modelled from the spec: the serde_json document tree for the persisted
State file (spec section 6).  A number node carries the value it encodes
exactly (`numF` an f64, `numN` an unsigned integer). -/
inductive Json
  | null
  | str (s : String)
  | numF (x : Float)
  | numN (n : Nat)
  | arr (items : List Json)
  | obj (fields : List (String × Json))

/-- `Profile` (from `profile.rs`, not among the given files) is opaque to
this core; the spec says it is carried through `State` unchanged, so it is
modelled as an opaque document blob. -/
structure Profile where
  raw : Json

/-- `pub enum Flag` from `state.rs`. -/
inductive Flag
  | DisableAllPersonsMFAPolicy
deriving DecidableEq

/-- `pub enum PreflightState` from `state.rs`. -/
inductive PreflightState
  | Present
  | Absent
deriving DecidableEq

/-- `pub enum Credential` from `state.rs`: currently only
`Password { plain }`. -/
inductive Credential
  | Password (plain : String)
deriving DecidableEq

/-- `pub enum Model` from `state.rs`: the behavior-strategy description. -/
inductive Model
  | Basic
  | Markov (distributions_matrix : DistrMatrix) (rng_seed : Option Nat)
      (normal_dist_mean_and_std_dev : Option (Float × Float))

/-- `impl Default for Model` from `state.rs`: the default is `Basic`. -/
instance : Inhabited Model := ⟨Model.Basic⟩

/-- `pub struct Person` from `state.rs`. -/
structure Person where
  preflight_state : PreflightState
  username : String
  display_name : String
  member_of : SortedStrings
  credential : Credential
  model : Model

/-- `pub struct State` from `state.rs`. -/
structure State where
  profile : Profile
  preflight_flags : List Flag
  persons : List Person

/-- An opaque error value returned by the directory client. -/
structure ClientError where
  msg : String

/-- The four operations of the Directory Client Facade consumed by the
executors in `model.rs`: `auth_simple_password`, `idm_person_account_get`,
`idm_person_account_set_attr` and `logout` of `KanidmClient`. -/
inductive FacadeCall
  | authSimplePassword (username plain : String)
  | idmPersonAccountGet (username : String)
  | idmPersonAccountSetAttr (username attr : String) (values : List String)
  | logout

/-- The directory client, modelled as its response behavior: a pure map
from a facade call to that call's outcome. -/
def KanidmClient := FacadeCall → Except ClientError Unit

/-- Modelled from the spec: `EventDetail` lives in `run.rs` (not among the
given files).  Per the spec's data model its variants mirror the executed
actions — Authentication, PersonGet, PersonSet, Logout — plus the
catch-all Error. -/
inductive EventDetail
  | Authentication
  | PersonGet
  | PersonSet
  | Logout
  | Error
deriving DecidableEq

/-- Modelled from the spec: `EventRecord` lives in `run.rs` (not among the
given files): a start instant, an elapsed duration and an `EventDetail`.
Instants and durations are modelled as natural tick counts. -/
structure EventRecord where
  start : Nat
  duration : Nat
  details : EventDetail
deriving DecidableEq

/-- `pub enum TransitionResult` from `model.rs`. -/
inductive TransitionResult
  | Ok
  | Error
deriving DecidableEq

/-- `pub async fn login` from `model.rs`: matches on the credential, calls
`auth_simple_password(username, plain)`, then classifies.  The wall clock
is modelled by the two instants `start` and `stop` passed in; the
elapsed duration is `stop - start`. -/
def login (client : KanidmClient) (person : Person) (start stop : Nat) :
    Except Error (TransitionResult × EventRecord) :=
  let result := match person.credential with
    | .Password plain => client (.authSimplePassword person.username plain)
  match result with
  | .ok _ =>
      .ok (.Ok, { start := start, duration := stop - start, details := .Authentication })
  | .error _ =>
      .ok (.Error, { start := start, duration := stop - start, details := .Error })

/-- `pub async fn person_get` from `model.rs`: calls
`idm_person_account_get(username)`, then classifies. -/
def person_get (client : KanidmClient) (person : Person) (start stop : Nat) :
    Except Error (TransitionResult × EventRecord) :=
  let result := client (.idmPersonAccountGet person.username)
  match result with
  | .ok _ =>
      .ok (.Ok, { start := start, duration := stop - start, details := .PersonGet })
  | .error _ =>
      .ok (.Error, { start := start, duration := stop - start, details := .Error })

/-- The facade call issued by `person_set`: in `model.rs` the call is
`idm_person_account_set_attr(person_username, "displayname",
&[person_username])` where `person_username = person.username.as_str()`. -/
def person_set_call (person : Person) : FacadeCall :=
  .idmPersonAccountSetAttr person.username "displayname" [person.username]

/-- `pub async fn person_set` from `model.rs`: issues `person_set_call`,
then classifies.  On facade success the source constructs the event with
`details: EventDetail::PersonGet`. -/
def person_set (client : KanidmClient) (person : Person) (start stop : Nat) :
    Except Error (TransitionResult × EventRecord) :=
  let result := client (person_set_call person)
  match result with
  | .ok _ =>
      .ok (.Ok, { start := start, duration := stop - start, details := .PersonGet })
  | .error _ =>
      .ok (.Error, { start := start, duration := stop - start, details := .Error })

/-- `pub async fn logout` from `model.rs`: the person parameter is unused
(`_person` in the source); calls `client.logout()`, then classifies. -/
def logout (client : KanidmClient) (_person : Person) (start stop : Nat) :
    Except Error (TransitionResult × EventRecord) :=
  let result := client .logout
  match result with
  | .ok _ =>
      .ok (.Ok, { start := start, duration := stop - start, details := .Logout })
  | .error _ =>
      .ok (.Error, { start := start, duration := stop - start, details := .Error })

/-- C1: if the facade call fails, each executor returns a non-error result
carrying `(TransitionResult::Error, EventRecord{details: Error})` instead
of propagating the facade error, and every invocation — success or
failure — returns exactly one event record. -/
theorem executors_absorb_facade_errors (client : KanidmClient) (person : Person)
    (start stop : Nat) (plain : String) (ea eg es el : ClientError)
    (hcred : person.credential = .Password plain)
    (ha : client (.authSimplePassword person.username plain) = .error ea)
    (hg : client (.idmPersonAccountGet person.username) = .error eg)
    (hs : client (.idmPersonAccountSetAttr person.username "displayname"
            [person.username]) = .error es)
    (hl : client .logout = .error el) :
    (login client person start stop =
        .ok (.Error, { start := start, duration := stop - start, details := .Error })) ∧
    (person_get client person start stop =
        .ok (.Error, { start := start, duration := stop - start, details := .Error })) ∧
    (person_set client person start stop =
        .ok (.Error, { start := start, duration := stop - start, details := .Error })) ∧
    (logout client person start stop =
        .ok (.Error, { start := start, duration := stop - start, details := .Error })) ∧
    (∀ c' : KanidmClient, ∃ r rec, login c' person start stop = .ok (r, rec)) ∧
    (∀ c' : KanidmClient, ∃ r rec, person_get c' person start stop = .ok (r, rec)) ∧
    (∀ c' : KanidmClient, ∃ r rec, person_set c' person start stop = .ok (r, rec)) ∧
    (∀ c' : KanidmClient, ∃ r rec, logout c' person start stop = .ok (r, rec)) := by
  refine ⟨?_, ?_, ?_, ?_, ?_, ?_, ?_, ?_⟩
  · simp [login, hcred, ha]
  · simp [person_get, hg]
  · simp [person_set, person_set_call, hs]
  · simp [logout, hl]
  · intro c'
    cases hx : c' (FacadeCall.authSimplePassword person.username plain) with
    | ok u =>
        exact ⟨.Ok, { start := start, duration := stop - start, details := .Authentication },
          by simp [login, hcred, hx]⟩
    | error e =>
        exact ⟨.Error, { start := start, duration := stop - start, details := .Error },
          by simp [login, hcred, hx]⟩
  · intro c'
    cases hx : c' (FacadeCall.idmPersonAccountGet person.username) with
    | ok u =>
        exact ⟨.Ok, { start := start, duration := stop - start, details := .PersonGet },
          by simp [person_get, hx]⟩
    | error e =>
        exact ⟨.Error, { start := start, duration := stop - start, details := .Error },
          by simp [person_get, hx]⟩
  · intro c'
    cases hx : c' (person_set_call person) with
    | ok u =>
        exact ⟨.Ok, { start := start, duration := stop - start, details := .PersonGet },
          by simp [person_set, hx]⟩
    | error e =>
        exact ⟨.Error, { start := start, duration := stop - start, details := .Error },
          by simp [person_set, hx]⟩
  · intro c'
    cases hx : c' FacadeCall.logout with
    | ok u =>
        exact ⟨.Ok, { start := start, duration := stop - start, details := .Logout },
          by simp [logout, hx]⟩
    | error e =>
        exact ⟨.Error, { start := start, duration := stop - start, details := .Error },
          by simp [logout, hx]⟩

/-- A directory client whose every call fails. -/
def failClient : KanidmClient := fun _call => .error { msg := "connection refused" }

/-- A directory client whose every call succeeds. -/
def okClient : KanidmClient := fun _call => .ok ()

/-- The concrete person of the spec's persistence scenario: username
"alice", Basic model, Password credential "hunter2", empty group
membership. -/
def alice : Person :=
  { preflight_state := .Present
    username := "alice"
    display_name := "Alice"
    member_of := ⟨[], rfl⟩
    credential := .Password "hunter2"
    model := .Basic }

/-- Witness for C1 with a client that refuses every call. -/
theorem executors_absorb_facade_errors_witness :
    login failClient alice 0 0 =
      .ok (.Error, { start := 0, duration := 0, details := .Error }) :=
  (executors_absorb_facade_errors failClient alice 0 0 "hunter2"
    { msg := "connection refused" } { msg := "connection refused" }
    { msg := "connection refused" } { msg := "connection refused" }
    rfl rfl rfl rfl rfl).1

/-- C5 evaluation: at a fully successful client, login yields the
Authentication detail, person_get yields PersonGet, logout yields Logout —
but person_set also yields PersonGet, not a PersonSet-specific detail:
`model.rs` constructs `EventDetail::PersonGet` in `person_set`'s success
arm. -/
theorem person_set_success_emits_personget_detail :
    (login okClient alice 0 0 =
      .ok (.Ok, { start := 0, duration := 0, details := .Authentication })) ∧
    (person_get okClient alice 0 0 =
      .ok (.Ok, { start := 0, duration := 0, details := .PersonGet })) ∧
    (logout okClient alice 0 0 =
      .ok (.Ok, { start := 0, duration := 0, details := .Logout })) ∧
    (person_set okClient alice 0 0 =
      .ok (.Ok, { start := 0, duration := 0, details := .PersonGet })) ∧
    EventDetail.PersonGet ≠ EventDetail.PersonSet :=
  ⟨rfl, rfl, rfl, rfl, by decide⟩

/-- C8: `person_set` invokes the facade's set-attribute operation on the
attribute "displayname" with value equal to the person's username; the
person's stored display_name field is never consulted — changing it
changes neither the issued call nor the executor's result. -/
theorem person_set_sets_displayname_to_username (p : Person) :
    person_set_call p =
      FacadeCall.idmPersonAccountSetAttr p.username "displayname" [p.username] ∧
    (∀ dn : String, person_set_call { p with display_name := dn } = person_set_call p) ∧
    (∀ (client : KanidmClient) (dn : String) (start stop : Nat),
      person_set client { p with display_name := dn } start stop =
        person_set client p start stop) :=
  ⟨rfl, fun _ => rfl, fun _ _ _ _ => rfl⟩

/-- C9: the result of `logout` does not depend on the person argument
(the source binds it as `_person` and never uses it). -/
theorem logout_independent_of_person (client : KanidmClient) (p q : Person)
    (start stop : Nat) :
    logout client p start stop = logout client q start stop := rfl

/-- Modelled from the spec: serde serialization of `Flag` (externally
tagged unit variant). -/
def encodeFlag : Flag → Json
  | .DisableAllPersonsMFAPolicy => .str "DisableAllPersonsMFAPolicy"

/-- Modelled from the spec: serde deserialization of `Flag`. -/
def decodeFlag : Json → Option Flag
  | .str "DisableAllPersonsMFAPolicy" => some .DisableAllPersonsMFAPolicy
  | _ => none

/-- Modelled from the spec: serde serialization of `PreflightState`. -/
def encodePreflight : PreflightState → Json
  | .Present => .str "Present"
  | .Absent => .str "Absent"

/-- Modelled from the spec: serde deserialization of `PreflightState`. -/
def decodePreflight : Json → Option PreflightState
  | .str "Present" => some .Present
  | .str "Absent" => some .Absent
  | _ => none

/-- Modelled from the spec: serde serialization of `Credential`
(externally tagged struct variant `Password { plain }`). -/
def encodeCredential : Credential → Json
  | .Password plain => .obj [("Password", .obj [("plain", .str plain)])]

/-- Modelled from the spec: serde deserialization of `Credential`. -/
def decodeCredential : Json → Option Credential
  | .obj [("Password", .obj [("plain", .str plain)])] => some (.Password plain)
  | _ => none

/-- Deserialize one float node. -/
def decodeFloat : Json → Option Float
  | .numF x => some x
  | _ => none

/-- Deserialize one string node. -/
def decodeString : Json → Option String
  | .str s => some s
  | _ => none

/-- Deserialize every element of an array, failing if any element fails. -/
def decodeList {α : Type} (g : Json → Option α) : List Json → Option (List α)
  | [] => some []
  | j :: rest => do
      let a ← g j
      let as ← decodeList g rest
      some (a :: as)

/-- Modelled from the spec: serde serialization of the flattened
`[f64; DISTR_MATRIX_SIZE]` probability matrix as an array of floats. -/
def encodeMatrix (dm : DistrMatrix) : Json := .arr (dm.val.map Json.numF)

/-- Modelled from the spec: serde deserialization of the matrix; a Rust
fixed-size array rejects documents of the wrong length. -/
def decodeMatrix : Json → Option DistrMatrix
  | .arr items => do
      let fs ← decodeList decodeFloat items
      if h : fs.length = DISTR_MATRIX_SIZE then some ⟨fs, h⟩ else none
  | _ => none

/-- Modelled from the spec: serde serialization of `Option<u64>`. -/
def encodeOptNat : Option Nat → Json
  | none => .null
  | some n => .numN n

/-- Modelled from the spec: serde deserialization of `Option<u64>`. -/
def decodeOptNat : Json → Option (Option Nat)
  | .null => some none
  | .numN n => some (some n)
  | _ => none

/-- Modelled from the spec: serde serialization of `Option<(f64, f64)>`. -/
def encodeOptPair : Option (Float × Float) → Json
  | none => .null
  | some (a, b) => .arr [.numF a, .numF b]

/-- Modelled from the spec: serde deserialization of `Option<(f64, f64)>`. -/
def decodeOptPair : Json → Option (Option (Float × Float))
  | .null => some none
  | .arr [.numF a, .numF b] => some (some (a, b))
  | _ => none

/-- Modelled from the spec: serde serialization of `Model` (externally
tagged: `"Basic"`, or an object tagged `"Markov"` with the three fields). -/
def encodeModel : Model → Json
  | .Basic => .str "Basic"
  | .Markov dm rs nd =>
      .obj [("Markov", .obj
        [("distributions_matrix", encodeMatrix dm),
         ("rng_seed", encodeOptNat rs),
         ("normal_dist_mean_and_std_dev", encodeOptPair nd)])]

/-- Modelled from the spec: serde deserialization of `Model`. -/
def decodeModel : Json → Option Model
  | .str "Basic" => some .Basic
  | .obj [("Markov", .obj
      [("distributions_matrix", dmJ),
       ("rng_seed", rsJ),
       ("normal_dist_mean_and_std_dev", ndJ)])] => do
      let dm ← decodeMatrix dmJ
      let rs ← decodeOptNat rsJ
      let nd ← decodeOptPair ndJ
      some (.Markov dm rs nd)
  | _ => none

/-- Modelled from the spec: serde serialization of the `BTreeSet<String>`
membership as its alphabetically ordered string array. -/
def encodeMemberOf (m : SortedStrings) : Json := .arr (m.val.map Json.str)

/-- Modelled from the spec: serde deserialization of the membership set. -/
def decodeMemberOf : Json → Option SortedStrings
  | .arr items => do
      let ss ← decodeList decodeString items
      if h : strictSorted ss = true then some ⟨ss, h⟩ else none
  | _ => none

/-- Modelled from the spec: serde serialization of `Person` with its six
fields in declaration order. -/
def encodePerson (p : Person) : Json :=
  .obj [("preflight_state", encodePreflight p.preflight_state),
        ("username", .str p.username),
        ("display_name", .str p.display_name),
        ("member_of", encodeMemberOf p.member_of),
        ("credential", encodeCredential p.credential),
        ("model", encodeModel p.model)]

/-- Modelled from the spec: serde deserialization of `Person`. -/
def decodePerson : Json → Option Person
  | .obj [("preflight_state", pfJ), ("username", .str u), ("display_name", .str dn),
          ("member_of", moJ), ("credential", cJ), ("model", mJ)] => do
      let pf ← decodePreflight pfJ
      let mo ← decodeMemberOf moJ
      let c ← decodeCredential cJ
      let m ← decodeModel mJ
      some { preflight_state := pf, username := u, display_name := dn,
             member_of := mo, credential := c, model := m }
  | _ => none

/-- Modelled from the spec: serde serialization of `State` — the whole
document written by `write_to_path`. -/
def encodeState (s : State) : Json :=
  .obj [("profile", s.profile.raw),
        ("preflight_flags", .arr (s.preflight_flags.map encodeFlag)),
        ("persons", .arr (s.persons.map encodePerson))]

/-- Modelled from the spec: serde deserialization of `State`. -/
def decodeState : Json → Option State
  | .obj [("profile", pJ), ("preflight_flags", .arr flagJs),
          ("persons", .arr personJs)] => do
      let fs ← decodeList decodeFlag flagJs
      let ps ← decodeList decodePerson personJs
      some { profile := ⟨pJ⟩, preflight_flags := fs, persons := ps }
  | _ => none

/-- The information content of a `std::io::Error`, opaque to this core. -/
structure IoErrorInfo where
  msg : String

/-- The information content of a `serde_json::Error`, opaque to this
core. -/
structure SerErrorInfo where
  msg : String

/-- `State::write_to_path` from `state.rs`: `File::create` is attempted
first and its failure mapped to `Error::Io`; then `serde_json::to_writer`
writes the serialized state, any failure mapped to `Error::SerdeJson`.
The file-system and serializer effects are passed in as the outcomes
`createRes` and `serRes`; on success the result is the document written. -/
def State.write_to_path (s : State) (createRes : Except IoErrorInfo Unit)
    (serRes : Except SerErrorInfo Unit) : Except Error Json :=
  match createRes with
  | .error _ => .error .Io
  | .ok _ =>
    match serRes with
    | .error _ => .error .SerdeJson
    | .ok _ => .ok (encodeState s)

/-- `impl TryFrom<&Path> for State` from `state.rs` (the spec's
`read_from_path`): `File::open` failure maps to `Error::Io`, then
`serde_json::from_reader` parses, failure mapping to `Error::SerdeJson`.
The effect of opening and reading the file is passed in as `openRes`. -/
def State.read_from_path (openRes : Except IoErrorInfo Json) :
    Except Error State :=
  match openRes with
  | .error _ => .error .Io
  | .ok j =>
    match decodeState j with
    | some s => .ok s
    | none => .error .SerdeJson

theorem decodeList_roundtrip {α : Type} (f : α → Json) (g : Json → Option α)
    (h : ∀ a, g (f a) = some a) (l : List α) :
    decodeList g (l.map f) = some l := by
  induction l with
  | nil => rfl
  | cons x t ih => simp [decodeList, h, ih]

theorem decodeFlag_encodeFlag (f : Flag) : decodeFlag (encodeFlag f) = some f := by
  cases f; rfl

theorem decodePreflight_encodePreflight (p : PreflightState) :
    decodePreflight (encodePreflight p) = some p := by
  cases p <;> rfl

theorem decodeCredential_encodeCredential (c : Credential) :
    decodeCredential (encodeCredential c) = some c := by
  cases c; rfl

theorem decodeOptNat_encodeOptNat (o : Option Nat) :
    decodeOptNat (encodeOptNat o) = some o := by
  cases o <;> rfl

theorem decodeOptPair_encodeOptPair (o : Option (Float × Float)) :
    decodeOptPair (encodeOptPair o) = some o := by
  cases o with
  | none => rfl
  | some p => cases p; rfl

theorem decodeMatrix_encodeMatrix (dm : DistrMatrix) :
    decodeMatrix (encodeMatrix dm) = some dm := by
  obtain ⟨l, hl⟩ := dm
  simp [encodeMatrix, decodeMatrix,
    decodeList_roundtrip Json.numF decodeFloat (fun a => rfl), hl]

theorem decodeMemberOf_encodeMemberOf (m : SortedStrings) :
    decodeMemberOf (encodeMemberOf m) = some m := by
  obtain ⟨l, hl⟩ := m
  simp [encodeMemberOf, decodeMemberOf,
    decodeList_roundtrip Json.str decodeString (fun a => rfl), hl]

theorem decodeModel_encodeModel (m : Model) :
    decodeModel (encodeModel m) = some m := by
  cases m with
  | Basic => rfl
  | Markov dm rs nd =>
      simp [encodeModel, decodeModel, decodeMatrix_encodeMatrix,
        decodeOptNat_encodeOptNat, decodeOptPair_encodeOptPair]

theorem decodePerson_encodePerson (p : Person) :
    decodePerson (encodePerson p) = some p := by
  cases p
  simp [encodePerson, decodePerson, decodePreflight_encodePreflight,
    decodeMemberOf_encodeMemberOf, decodeCredential_encodeCredential,
    decodeModel_encodeModel]

theorem decodeState_encodeState (s : State) :
    decodeState (encodeState s) = some s := by
  obtain ⟨⟨pJ⟩, fs, ps⟩ := s
  simp [encodeState, decodeState,
    decodeList_roundtrip encodeFlag decodeFlag decodeFlag_encodeFlag,
    decodeList_roundtrip encodePerson decodePerson decodePerson_encodePerson]

/-- C2: writing a State to a path and then reading that path back yields
the original State, equal in all fields — for every State, hence also for
empty person lists and every Flag, Model and Credential variant. -/
theorem state_write_read_roundtrip (s : State) (doc : Json)
    (h : s.write_to_path (.ok ()) (.ok ()) = .ok doc) :
    State.read_from_path (.ok doc) = .ok s := by
  have hdoc : encodeState s = doc := by
    have h' := h
    simp [State.write_to_path] at h'
    exact h'
  subst hdoc
  simp [State.read_from_path, decodeState_encodeState]

/-- The concrete State of the spec's persistence scenario: one person
"alice" with the Basic model and Password credential "hunter2". -/
def exampleState : State :=
  { profile := ⟨Json.null⟩
    preflight_flags := []
    persons := [alice] }

/-- Witness for C2 at the spec's concrete persistence scenario. -/
theorem state_write_read_roundtrip_witness :
    State.read_from_path (.ok (encodeState exampleState)) = .ok exampleState :=
  state_write_read_roundtrip exampleState (encodeState exampleState) rfl

/-- C6: write_to_path yields `Io` exactly when creating the file fails and
`SerdeJson` exactly when serialization fails, succeeding otherwise;
read_from_path yields `Io` exactly when opening fails and `SerdeJson`
exactly when parsing fails, succeeding otherwise. -/
theorem persistence_error_taxonomy (s : State) (ioe : IoErrorInfo)
    (sere : SerErrorInfo) (j : Json) :
    (∀ sr, s.write_to_path (.error ioe) sr = .error .Io) ∧
    (s.write_to_path (.ok ()) (.error sere) = .error .SerdeJson) ∧
    (s.write_to_path (.ok ()) (.ok ()) = .ok (encodeState s)) ∧
    (State.read_from_path (.error ioe) = .error .Io) ∧
    (decodeState j = none → State.read_from_path (.ok j) = .error .SerdeJson) ∧
    (∀ st, decodeState j = some st → State.read_from_path (.ok j) = .ok st) := by
  refine ⟨fun sr => rfl, rfl, rfl, rfl, ?_, ?_⟩
  · intro hnone
    simp [State.read_from_path, hnone]
  · intro st hsome
    simp [State.read_from_path, hsome]

/-- Witness for C6: a malformed document (`null`) is a SerdeJson failure
on read, and a successful write stores the encoded state. -/
theorem persistence_error_taxonomy_witness :
    State.read_from_path (.ok Json.null) = .error .SerdeJson ∧
    exampleState.write_to_path (.ok ()) (.ok ()) = .ok (encodeState exampleState) :=
  ⟨(persistence_error_taxonomy exampleState ⟨"disk full"⟩ ⟨"bad json"⟩
      Json.null).2.2.2.2.1 rfl,
   (persistence_error_taxonomy exampleState ⟨"disk full"⟩ ⟨"bad json"⟩
      Json.null).2.2.1⟩

/-- `pub struct Transition` from `model.rs`: a scheduled action plus an
optional pre-execution delay.  The `Duration` of the delay is modelled as
its length in seconds, an f64 (the Markov strategy samples it from a
normal distribution). -/
structure Transition where
  delay : Option Float
  action : TransitionAction

/-- `Transition::delay` from `model.rs`. -/
def Transition.delayOf (t : Transition) : Option Float := t.delay

/-- Modelled from the spec: one step of the strategy's owned deterministic
pseudo-random generator (a 64-bit congruential state), yielding a 53-bit
draw and the successor state. -/
def rngNext (s : Nat) : Nat × Nat :=
  let s' := (6364136223846793005 * s + 1442695040888963407) % (2 ^ 64)
  (s' / (2 ^ 11) % (2 ^ 53), s')

/-- Modelled from the spec: turn a 53-bit draw into a uniform value in
the interval from zero inclusive to one exclusive. -/
def unitUniform (r : Nat) : Float := Float.ofNat r / Float.ofNat (2 ^ 53)

/-- Modelled from the spec: a standard normal deviate from two uniform
draws (Box-Muller). -/
def normalFromUniforms (u1 u2 : Float) : Float :=
  Float.sqrt (-2.0 * Float.log u1) * Float.cos (6.283185307179586 * u2)

/-- Modelled from the spec: roulette-wheel selection over one matrix row —
walk the row accumulating a running sum until it exceeds the draw, and if
no column is selected before the row is exhausted, select the last column
deterministically. -/
def selectColumn (u : Float) : List Float → Nat → Float → Nat
  | [], idx, _ => idx
  | [_], idx, _ => idx
  | p :: rest, idx, acc =>
      if u < acc + p then idx else selectColumn u rest (idx + 1) (acc + p)

/-- Modelled from the spec: the live Markov strategy state
(`models/model_markov.rs` is not among the given files) — the current
action cursor, the flattened probability matrix, the owned generator
state, and the optional delay-distribution parameters. -/
structure ActorMarkov where
  current : TransitionAction
  matrix : DistrMatrix
  rng : Nat
  normal_dist_mean_and_std_dev : Option (Float × Float)

/-- Modelled from the spec: `ActorMarkov::new` — validates that the
flattened matrix has size N² (`ActorConstruction` otherwise), starts the
cursor at Login, and seeds the owned generator deterministically from the
supplied seed, or from the OS entropy source (passed in as `entropy`)
when no seed was supplied. -/
def ActorMarkov.new (distributions_matrix : DistrMatrix) (rng_seed : Option Nat)
    (normal_dist_mean_and_std_dev : Option (Float × Float)) (entropy : Nat) :
    Except Error ActorMarkov :=
  if distributions_matrix.val.length = DISTR_MATRIX_SIZE then
    .ok { current := .Login
          matrix := distributions_matrix
          rng := match rng_seed with | some s => s | none => entropy
          normal_dist_mean_and_std_dev := normal_dist_mean_and_std_dev }
  else .error .ActorConstruction

/-- Modelled from the spec: one Markov sampling step — draw a uniform
value, select the next action from the current action's row by
roulette-wheel selection, optionally draw a normal delay clamped at zero,
and advance the cursor and generator. -/
def ActorMarkov.nextTransition (a : ActorMarkov) : ActorMarkov × Transition :=
  let (r, rng') := rngNext a.rng
  let u := unitUniform r
  let row := (a.matrix.val.drop (a.current.toOrdinal.toNat * TransitionAction.COUNT)).take
    TransitionAction.COUNT
  let idx := selectColumn u row 0 0.0
  let next := match TransitionAction.tryFrom (Int.ofNat idx) with
    | .ok act => act
    | .error _ => .WriteProperty
  let (delay, rng'') := match a.normal_dist_mean_and_std_dev with
    | some (mean, std) =>
        let (r2, rngA) := rngNext rng'
        let (r3, rngB) := rngNext rngA
        let z := normalFromUniforms (unitUniform r2) (unitUniform r3)
        let d := mean + std * z
        (some (if d < 0.0 then 0.0 else d), rngB)
    | none => (none, rng')
  ({ a with current := next, rng := rng'' }, { delay := delay, action := next })

/-- Run a Markov strategy for a number of steps, collecting the sampled
action and delay of every step. -/
def ActorMarkov.run (a : ActorMarkov) : Nat → List (TransitionAction × Option Float)
  | 0 => []
  | n + 1 =>
      let (a', t) := a.nextTransition
      (t.action, t.delay) :: a'.run n

/-- Modelled from the spec: the deterministic Basic strategy
(`models/model_basic.rs` is not among the given files) cycles a fixed
scripted action order; its only state is a position counter. -/
structure ActorBasic where
  position : Nat

/-- Modelled from the spec: `ActorBasic::new` — construction is
infallible and starts at the beginning of the script. -/
def ActorBasic.new : ActorBasic := ⟨0⟩

/-- A live, boxed strategy object satisfying the `ActorModel` capability:
either a Basic or a Markov instance. -/
inductive ActorModelObj
  | basic (a : ActorBasic)
  | markov (a : ActorMarkov)

/-- `Model::as_dyn_object` from `state.rs`: `Basic` is boxed directly
from the infallible `ActorBasic::new()`; `Markov` goes through the
fallible `ActorMarkov::new(...)?`.  The OS entropy consumed by an
unseeded Markov generator is passed in as `entropy`. -/
def Model.as_dyn_object (m : Model) (entropy : Nat) : Except Error ActorModelObj :=
  match m with
  | .Basic => .ok (.basic ActorBasic.new)
  | .Markov dm rs nd => do
      let a ← ActorMarkov.new dm rs nd entropy
      .ok (.markov a)

/-- C7: two independently constructed Markov strategies with the same
explicit seed, matrix and delay parameters produce identical sequences of
sampled actions and identical delay values over any number of steps,
whatever entropy the surrounding process would otherwise have provided —
wall-clock time and other identities' state are not inputs at all. -/
theorem markov_seeded_determinism (dm : DistrMatrix) (seed : Nat)
    (nd : Option (Float × Float)) (entropy1 entropy2 : Nat) (n : Nat) :
    (ActorMarkov.new dm (some seed) nd entropy1).map (fun a => a.run n) =
    (ActorMarkov.new dm (some seed) nd entropy2).map (fun a => a.run n) := rfl

/-- C10: the Model-to-live-strategy factory never fails for any model
that is not a Markov description — in particular `Basic` always yields a
strategy object; only the Markov arm is fallible. -/
theorem as_dyn_object_infallible_for_basic (m : Model) (entropy : Nat)
    (h : ∀ dm rs nd, m ≠ Model.Markov dm rs nd) :
    m.as_dyn_object entropy = .ok (.basic ActorBasic.new) := by
  cases m with
  | Basic => rfl
  | Markov dm rs nd => exact absurd rfl (h dm rs nd)

/-- Witness for C10 at the Basic model. -/
theorem as_dyn_object_infallible_for_basic_witness :
    Model.as_dyn_object .Basic 0 = .ok (.basic ActorBasic.new) :=
  as_dyn_object_infallible_for_basic .Basic 0
    (fun _dm _rs _nd h => Model.noConfusion h)

end Orca
